import Mathlib

/-!
Verification of the webrtc-messenger frontend core: the X25519/NaCl cipher
engine (`src/frontend/src/lib/crypto.ts`), the legacy RSA hybrid engine
(`src/unnamed/part_004`), the IndexedDB key vault
(`src/frontend/src/lib/keyStore.ts`) and the socket message dispatcher
(`src/frontend/src/lib/useSocket.ts`).

Byte strings are modelled as `List Nat`.  The external cryptographic
libraries (tweetnacl / tweetnacl-util) are not part of the repository; they
are abstracted as a `NaclLib` structure whose proof fields state exactly the
documented contracts the repository code relies on (box/open round trip,
base64 decode of encode, UTF-8 encode of decode).  All repository functions
are translated literally from the TypeScript source, with the sources of
randomness (ephemeral key pair, nonce) passed in as explicit arguments and
thrown exceptions modelled as `Except`/`Option` results.
-/

namespace WebrtcMessenger

/-- Byte sequences (JS `Uint8Array`). -/
abbrev Bytes := List Nat

/-- JS truthiness of an optional string: `undefined`/`null` and the empty
string are falsy.  `jsStr o = some s` exactly when `o` holds a truthy string. -/
def jsStr : Option String → Option String
  | some s => if s = "" then none else some s
  | none => none

/-- JS `a || b` on optional strings: the empty string falls through. -/
def jsOr : Option String → Option String → Option String
  | some s, b => if s = "" then b else some s
  | none, b => b

/-- Whitespace for the purposes of JS `String.prototype.trim`. -/
def isJsWhitespace (c : Char) : Bool :=
  c == ' ' || c == '\t' || c == '\n' || c == '\r'

/-- JS `message.trim()`: strip leading and trailing whitespace. -/
def jsTrim (s : String) : String :=
  String.mk (((s.data.dropWhile isJsWhitespace).reverse.dropWhile isJsWhitespace).reverse)

/-- JS `username.toLowerCase()`, modelled character by character. -/
def jsToLower (s : String) : String :=
  String.mk (s.data.map Char.toLower)

/-! ## The external NaCl library contract

`tweetnacl`'s `nacl.box` / `nacl.box.open` / `nacl.box.keyPair` and
`tweetnacl-util`'s base64 / UTF-8 codecs are outside the repository.  The
structure below carries them as abstract operations together with the
documented laws the repository's code depends on. -/

structure NaclLib where
  /-- `nacl.box.keyPair()`: the public key derived from a secret key. -/
  boxPub : Bytes → Bytes
  /-- `nacl.box(message, nonce, theirPublicKey, mySecretKey)`. -/
  box : Bytes → Bytes → Bytes → Bytes → Bytes
  /-- `nacl.box.open(ciphertext, nonce, theirPublicKey, mySecretKey)`;
  `none` models the `null` returned on authentication failure. -/
  boxOpen : Bytes → Bytes → Bytes → Bytes → Option Bytes
  /-- `encodeBase64` of tweetnacl-util. -/
  encodeBase64 : Bytes → String
  /-- `decodeBase64` of tweetnacl-util; `none` models the exception thrown
  on input that is not valid base64 (or is `undefined`). -/
  decodeBase64 : String → Option Bytes
  /-- `decodeUTF8`: string to bytes. -/
  decodeUTF8 : String → Bytes
  /-- `encodeUTF8`: bytes to string. -/
  encodeUTF8 : Bytes → String
  /-- Authenticated-box correctness: opening with the counterpart key pair
  recovers the message. -/
  box_roundtrip : ∀ m n ska skb,
    boxOpen (box m n (boxPub skb) ska) n (boxPub ska) skb = some m
  /-- Base64 decoding inverts encoding. -/
  base64_roundtrip : ∀ b, decodeBase64 (encodeBase64 b) = some b
  /-- UTF-8 encoding inverts decoding. -/
  utf8_roundtrip : ∀ s, encodeUTF8 (decodeUTF8 s) = s

/-! ## crypto.ts (version 2 engine) -/

/-- `EncryptedPayload` of `crypto.ts`: what the v2 engine emits. -/
structure EncryptedPayload where
  ephemeralPublicKey : String
  nonce : String
  ciphertext : String
  version : Nat
deriving Repr, DecidableEq

/-- `StorableKeyPair` of `crypto.ts`. -/
structure StorableKeyPair where
  publicKey : String
  privateKey : String
deriving Repr, DecidableEq

/-- A payload as `decryptMessage` actually receives it after `JSON.parse`:
a dynamic object on which any of the v1 or v2 fields may be absent
(`undefined`). -/
structure RawPayload where
  ephemeralPublicKey : Option String := none
  nonce : Option String := none
  ciphertext : Option String := none
  encryptedKey : Option String := none
  encryptedMessage : Option String := none
  iv : Option String := none
  version : Nat
deriving Repr, DecidableEq

/-- The payload a successful v2 encryption emits, viewed as the dynamic
object the receiving side parses. -/
def EncryptedPayload.toRaw (p : EncryptedPayload) : RawPayload :=
  { ephemeralPublicKey := some p.ephemeralPublicKey
  , nonce := some p.nonce
  , ciphertext := some p.ciphertext
  , version := p.version }

/-- `generateKeyPair` of `crypto.ts`: `nacl.box.keyPair()` with both halves
base64-encoded.  The secret key drawn from the RNG is an explicit input. -/
def generateKeyPair (lib : NaclLib) (secretKey : Bytes) : StorableKeyPair :=
  { publicKey := lib.encodeBase64 (lib.boxPub secretKey)
  , privateKey := lib.encodeBase64 secretKey }

/-- `encryptMessage` of `crypto.ts` (lines 75-118).  The ephemeral secret
key and the nonce drawn inside the function are explicit inputs; the
`catch` wrapping any thrown exception into `Error('Failed to encrypt
message')` is the `Except.error` case. -/
def encryptMessage (lib : NaclLib) (message : String) (recipientPublicKey : String)
    (ephemeralSecretKey : Bytes) (nonceBytes : Bytes) : Except String EncryptedPayload :=
  match lib.decodeBase64 recipientPublicKey with
  | none => Except.error "Failed to encrypt message"
  | some recipientPubKeyBytes =>
      let messageBytes := lib.decodeUTF8 message
      let ciphertext := lib.box messageBytes nonceBytes recipientPubKeyBytes ephemeralSecretKey
      Except.ok
        { ephemeralPublicKey := lib.encodeBase64 (lib.boxPub ephemeralSecretKey)
        , nonce := lib.encodeBase64 nonceBytes
        , ciphertext := lib.encodeBase64 ciphertext
        , version := 2 }

/-- `decryptMessage` of `crypto.ts` (lines 127-165).  The version check in
the source only prints a console warning and never influences control flow,
so the model does not read `payload.version` at all.  Accessing an absent
field and then base64-decoding it throws in JS; every throw is caught and
rethrown as the single failure message. -/
def decryptMessage (lib : NaclLib) (payload : RawPayload) (privateKey : String) :
    Except String String :=
  match payload.ephemeralPublicKey.bind lib.decodeBase64,
        payload.nonce.bind lib.decodeBase64,
        payload.ciphertext.bind lib.decodeBase64,
        lib.decodeBase64 privateKey with
  | some ephemeralPubKey, some nonceBytes, some ciphertextBytes, some privateKeyBytes =>
      match lib.boxOpen ciphertextBytes nonceBytes ephemeralPubKey privateKeyBytes with
      | some decrypted => Except.ok (lib.encodeUTF8 decrypted)
      | none => Except.error "Failed to decrypt message. Key mismatch or corrupted data."
  | _, _, _, _ => Except.error "Failed to decrypt message. Key mismatch or corrupted data."

/-! ## The legacy version-1 engine (src/unnamed/part_004) -/

/-- `encryptMessage` of the legacy v1 engine (`src/unnamed/part_004`, RSA-OAEP
key transport plus AES-GCM), with the Web Crypto primitives, the base64
codec, the generated AES session key and the IV abstracted as parameters.
Its payloads carry `encryptedKey`/`encryptedMessage`/`iv` and `version = 1`
and none of the v2 box fields. -/
def encryptMessageV1 (rsaEncrypt : Bytes → Bytes → Bytes)
    (aesEncrypt : Bytes → Bytes → Bytes → Bytes)
    (b64encode : Bytes → String) (utf8decode : String → Bytes)
    (message : String) (publicKey : Bytes) (aesKey iv : Bytes) : RawPayload :=
  { encryptedKey := some (b64encode (rsaEncrypt publicKey aesKey))
  , encryptedMessage := some (b64encode (aesEncrypt aesKey iv (utf8decode message)))
  , iv := some (b64encode iv)
  , version := 1 }

/-! ## keyStore.ts -/

/-- The IndexedDB object store `keys`, keyed by the record id
(`store.put` replaces an existing record with the same id). -/
abbrev KeyStore := List (String × String)

/-- `store.put({id, key})`. -/
def storePut (store : KeyStore) (id key : String) : KeyStore :=
  match store with
  | [] => [(id, key)]
  | (i, k) :: rest => if i = id then (id, key) :: rest else (i, k) :: storePut rest id key

/-- `store.get(id)`. -/
def storeGet (store : KeyStore) (id : String) : Option String :=
  match store with
  | [] => none
  | (i, k) :: rest => if i = id then some k else storeGet rest id

/-- `getPrivateKeyId` of `keyStore.ts` (lines 5-8): namespaced by the lowercase
username, with a legacy fallback id when no username is known. -/
def getPrivateKeyId (username currentUsername : Option String) : String :=
  match jsOr username currentUsername with
  | some u => "private-key-" ++ jsToLower u
  | none => "user-private-key"

/-- `getPublicKeyId` of `keyStore.ts` (lines 10-13). -/
def getPublicKeyId (username currentUsername : Option String) : String :=
  match jsOr username currentUsername with
  | some u => "public-key-" ++ jsToLower u
  | none => "user-public-key"

/-- `savePrivateKey`: put under the active identity's private-key id.
`currentUsername` models `getCurrentUsername()` read from localStorage. -/
def savePrivateKey (store : KeyStore) (currentUsername : Option String)
    (privateKey : String) : KeyStore :=
  storePut store (getPrivateKeyId none currentUsername) privateKey

/-- `savePublicKey`. -/
def savePublicKey (store : KeyStore) (currentUsername : Option String)
    (publicKey : String) : KeyStore :=
  storePut store (getPublicKeyId none currentUsername) publicKey

/-- `getPrivateKey`. -/
def getPrivateKey (store : KeyStore) (currentUsername : Option String) : Option String :=
  storeGet store (getPrivateKeyId none currentUsername)

/-- `getPublicKey`. -/
def getPublicKey (store : KeyStore) (currentUsername : Option String) : Option String :=
  storeGet store (getPublicKeyId none currentUsername)

/-- `getKeyPair`: both halves, or `null` when either is missing. -/
def getKeyPair (store : KeyStore) (currentUsername : Option String) :
    Option (String × String) :=
  match getPublicKey store currentUsername, getPrivateKey store currentUsername with
  | some pub, some priv => some (pub, priv)
  | _, _ => none

/-- `saveKeyPair`: save both halves (two distinct record ids). -/
def saveKeyPair (store : KeyStore) (currentUsername : Option String)
    (publicKey privateKey : String) : KeyStore :=
  savePrivateKey (savePublicKey store currentUsername publicKey) currentUsername privateKey

/-- `clearKeys` of `keyStore.ts` (lines 161-177): `store.clear()` empties the
whole object store, not just the active identity's records. -/
def clearKeys (_store : KeyStore) : KeyStore := []

/-- `hasKeyPair` of `keyStore.ts` (lines 179-182). -/
def hasKeyPair (store : KeyStore) (currentUsername : Option String) : Bool :=
  (getKeyPair store currentUsername).isSome

/-- The module-level `recipientKeyCache` of `keyStore.ts`. -/
abbrev RecipientKeyCache := List (String × String)

/-- `cacheRecipientKey` of `keyStore.ts` (lines 186-188): keyed by lowercase
username. -/
def cacheRecipientKey (cache : RecipientKeyCache) (username publicKey : String) :
    RecipientKeyCache :=
  storePut cache (jsToLower username) publicKey

/-- `getCachedRecipientKey` of `keyStore.ts` (lines 190-192). -/
def getCachedRecipientKey (cache : RecipientKeyCache) (username : String) : Option String :=
  storeGet cache (jsToLower username)

/-! ## useSocket.ts: the message dispatcher -/

/-- A chat message as kept in the `messages` state. -/
structure Message where
  username : String
  message : String
  timestamp : String
  isDM : Bool := false
  recipient : Option String := none
deriving Repr, DecidableEq

/-- A socket envelope emitted by `send_message` / `send_direct_message`
(broadcast envelopes carry `isDM: false` and no recipient; directed
envelopes carry a recipient and no `isDM` field). -/
structure Envelope where
  username : String
  recipient : Option String
  message : String
  encrypted : Bool
  isDM : Option Bool
  timestamp : String
deriving Repr, DecidableEq

/-- An incoming `receive_message` / `receive_direct_message` payload. -/
structure IncomingEnvelope where
  username : String
  recipient : Option String
  message : String
  encrypted : Bool
  timestamp : String
deriving Repr, DecidableEq

/-- Outcome of `await keysApi.getPublicKey(recipient)`: either a response
`{data?, error?}` (with `publicKey` standing for `data?.public_key`) or a
thrown network error. -/
inductive LookupOutcome where
  | response (error : Option String) (publicKey : Option String)
  | thrown
deriving Repr, DecidableEq

/-- Everything observable a single `sendDirectMessage` call produces:
socket emits, optimistic log appends, console warnings/errors, how often
`encryptMessage` ran, how often the remote directory was queried, and the
recipient-key cache afterwards. -/
structure SendResult where
  emitted : List Envelope
  appended : List Message
  warnings : List String
  encryptCalls : Nat
  remoteLookups : Nat
  finalCache : RecipientKeyCache
deriving Repr, DecidableEq

/-- Observable outcome of the broadcast `sendMessage` (useSocket.ts lines
463-474): it emits one plaintext envelope, appends nothing locally, and
contains no call to `encryptMessage`. -/
structure BroadcastResult where
  emitted : List Envelope
  appended : List Message
  encryptCalls : Nat
deriving Repr, DecidableEq

/-- `sendMessage` of `useSocket.ts` (lines 463-474): broadcast is always
transmitted unmodified with `encrypted: false`. -/
def sendMessage (username message timestamp : String) : BroadcastResult :=
  if jsTrim message = "" then
    { emitted := [], appended := [], encryptCalls := 0 }
  else
    { emitted := [{ username := username, recipient := none, message := message
                  , encrypted := false, isDM := some false, timestamp := timestamp }]
    , appended := [], encryptCalls := 0 }

/-- `JSON.stringify` of a v2 `EncryptedPayload` in field order. -/
def payloadJson (p : EncryptedPayload) : String :=
  "\x7b\"ephemeralPublicKey\":\"" ++ p.ephemeralPublicKey ++ "\",\"nonce\":\"" ++ p.nonce
    ++ "\",\"ciphertext\":\"" ++ p.ciphertext ++ "\",\"version\":" ++ toString p.version
    ++ "\x7d"

/-- `sendDirectMessage` of `useSocket.ts` (lines 476-547), translated branch
by branch.  The recipient-key cache is threaded through unchanged because
the source imports `getCachedRecipientKey`/`cacheRecipientKey` but never
calls them: key resolution always goes to `keysApi.getPublicKey`.  A failed
encryption is caught and execution falls through to the unencrypted
fallback emit; string entries in `warnings` model the console
warnings/errors along the taken path. -/
def sendDirectMessage (lib : NaclLib) (ephemeralSecretKey nonceBytes : Bytes)
    (username message recipient : String) (e2eEnabled : Bool) (privateKey : Option String)
    (cache : RecipientKeyCache) (lookup : LookupOutcome) (timestamp : String) : SendResult :=
  if jsTrim message = "" ∨ recipient = "" then
    { emitted := [], appended := [], warnings := [], encryptCalls := 0, remoteLookups := 0
    , finalCache := cache }
  else
    let echo : Message :=
      { username := username, message := message, timestamp := timestamp
      , isDM := true, recipient := some recipient }
    let plainEnvelope : Envelope :=
      { username := username, recipient := some recipient, message := message
      , encrypted := false, isDM := none, timestamp := timestamp }
    if e2eEnabled && (jsStr privateKey).isSome then
      match lookup with
      | LookupOutcome.thrown =>
          { emitted := [plainEnvelope], appended := [echo]
          , warnings := ["DM encryption failed", "Falling back to UNENCRYPTED DM!"]
          , encryptCalls := 0, remoteLookups := 1, finalCache := cache }
      | LookupOutcome.response err pk =>
          let errLog : List String :=
            match err with
            | some _ => ["API Error getting public key"]
            | none => []
          match jsStr pk with
          | some k =>
              match encryptMessage lib message k ephemeralSecretKey nonceBytes with
              | Except.ok payload =>
                  { emitted := [{ username := username, recipient := some recipient
                                , message := payloadJson payload, encrypted := true
                                , isDM := none, timestamp := timestamp }]
                  , appended := [echo], warnings := errLog
                  , encryptCalls := 1, remoteLookups := 1, finalCache := cache }
              | Except.error _ =>
                  { emitted := [plainEnvelope], appended := [echo]
                  , warnings := errLog ++
                      ["DM encryption failed", "Falling back to UNENCRYPTED DM!"]
                  , encryptCalls := 1, remoteLookups := 1, finalCache := cache }
          | none =>
              { emitted := [plainEnvelope], appended := [echo]
              , warnings := errLog ++
                  ["No public key found", "Falling back to UNENCRYPTED DM!"]
              , encryptCalls := 0, remoteLookups := 1, finalCache := cache }
    else
      { emitted := [plainEnvelope], appended := [echo]
      , warnings := ["E2E not enabled or no private key", "Falling back to UNENCRYPTED DM!"]
      , encryptCalls := 0, remoteLookups := 0, finalCache := cache }

/-- The `receive_message` handler of `useSocket.ts` (lines 295-321).
`parse` models `JSON.parse` on the message body (`none` = parse throws);
the whole decrypt attempt sits in one `try`, whose `catch` appends the
broadcast placeholder message. -/
def receiveMessage (lib : NaclLib) (parse : String → Option RawPayload)
    (privateKey : Option String) (data : IncomingEnvelope) (log : List Message) :
    List Message :=
  match (if data.encrypted then jsStr privateKey else none) with
  | some k =>
      match parse data.message with
      | some payload =>
          match decryptMessage lib payload k with
          | Except.ok decrypted =>
              log ++ [{ username := data.username, message := decrypted
                      , timestamp := data.timestamp, isDM := false
                      , recipient := data.recipient }]
          | Except.error _ =>
              log ++ [{ username := data.username
                      , message := "[Encrypted message - unable to decrypt]"
                      , timestamp := data.timestamp, isDM := false
                      , recipient := data.recipient }]
      | none =>
          log ++ [{ username := data.username
                  , message := "[Encrypted message - unable to decrypt]"
                  , timestamp := data.timestamp, isDM := false
                  , recipient := data.recipient }]
  | none =>
      log ++ [{ username := data.username, message := data.message
              , timestamp := data.timestamp, isDM := false, recipient := data.recipient }]

/-- The `receive_direct_message` handler of `useSocket.ts` (lines 323-378):
an envelope whose sender is the local user is dropped (it was already
echoed at send time); otherwise the decrypt attempt mirrors the broadcast
handler with the DM placeholder and `isDM: true`. -/
def receiveDirectMessage (lib : NaclLib) (parse : String → Option RawPayload)
    (username : String) (privateKey : Option String) (data : IncomingEnvelope)
    (log : List Message) : List Message :=
  if data.username = username then log
  else
    match (if data.encrypted then jsStr privateKey else none) with
    | some k =>
        match parse data.message with
        | some payload =>
            match decryptMessage lib payload k with
            | Except.ok decrypted =>
                log ++ [{ username := data.username, message := decrypted
                        , timestamp := data.timestamp, isDM := true
                        , recipient := data.recipient }]
            | Except.error _ =>
                log ++ [{ username := data.username
                        , message := "[Encrypted DM - unable to decrypt]"
                        , timestamp := data.timestamp, isDM := true
                        , recipient := data.recipient }]
        | none =>
            log ++ [{ username := data.username
                    , message := "[Encrypted DM - unable to decrypt]"
                    , timestamp := data.timestamp, isDM := true
                    , recipient := data.recipient }]
    | none =>
        log ++ [{ username := data.username, message := data.message
                , timestamp := data.timestamp, isDM := true, recipient := data.recipient }]

/-! ## useSocket.ts: the peer_connected handler -/

/-- A `p2pEvents` entry. -/
structure P2PEvent where
  type : String
  peer_id : String
  timestamp : String
deriving Repr, DecidableEq

/-- Modelled from the spec: the result of `keysApi.resyncKey()`.  The
function is called from `useSocket.ts` (line 409) and `chat/page.tsx` but
its definition is absent from the staged `api.ts`; per the spec it is
`KeyDirectoryClient.publish(ownPublicKey)` — it re-uploads the local
identity's public key to the remote directory and may fail with a
directory error or a rejected promise. -/
inductive ResyncOutcome where
  | ok
  | apiError (e : String)
  | rejected
deriving Repr, DecidableEq

/-- Observable outcome of one `peer_connected` event. -/
structure PeerConnectedResult where
  events : List P2PEvent
  socketEmits : List String
  publishCalls : Nat
  threw : Bool
deriving Repr, DecidableEq

/-- The `peer_connected` handler of `useSocket.ts` (lines 399-415): append
the event, re-request p2p info, and — only when E2E is enabled — call
`keysApi.resyncKey()`, whose promise carries a `.catch(() => { })` so
neither its failure (`resync` is never inspected beyond a console log) nor
anything else makes the handler throw. -/
def peerConnectedHandler (e2eEnabled : Bool) (resync : ResyncOutcome)
    (peerId timestamp : String) : PeerConnectedResult :=
  { events := [{ type := "peer_connected", peer_id := peerId, timestamp := timestamp }]
  , socketEmits := ["get_p2p_info"]
  , publishCalls := if e2eEnabled then 1 else 0
  , threw := false }

/-! ## A concrete instance of the library contract

A small executable model of the NaCl operations, used to evaluate the
theorems on concrete inputs: public keys equal secret keys, the "shared
key" is the commutative sum of both key sums plus the nonce sum, and the
codecs are a unary encoding that is exactly invertible. -/

/-- Unary code of one byte: n ones then a zero. -/
def natUnary : Nat → List Char
  | 0 => ['0']
  | n + 1 => '1' :: natUnary n

/-- Unary code of a byte sequence. -/
def unaryEncode : List Nat → List Char
  | [] => []
  | n :: b => natUnary n ++ unaryEncode b

/-- Decode a unary code; `none` on malformed input. -/
def unaryDecode : List Char → Option (List Nat)
  | [] => some []
  | c :: rest =>
      if c = '0' then (unaryDecode rest).map (fun b => 0 :: b)
      else
        match unaryDecode rest with
        | some (n :: b) => some ((n + 1) :: b)
        | _ => none

def toyBox (m n pk sk : Bytes) : Bytes := (pk.sum + sk.sum + n.sum) :: m

def toyBoxOpen (c n pk sk : Bytes) : Option Bytes :=
  match c with
  | [] => none
  | k :: m => if k = pk.sum + sk.sum + n.sum then some m else none

def toyEncodeBase64 (b : Bytes) : String := String.mk (unaryEncode b)

def toyDecodeBase64 (s : String) : Option Bytes := unaryDecode s.data

def toyDecodeUTF8 (s : String) : Bytes := s.data.map Char.toNat

def toyEncodeUTF8 (b : Bytes) : String := String.mk (b.map Char.ofNat)

/-- The concrete library instance. -/
def toyLib : NaclLib where
  boxPub := fun sk => sk
  box := toyBox
  boxOpen := toyBoxOpen
  encodeBase64 := toyEncodeBase64
  decodeBase64 := toyDecodeBase64
  decodeUTF8 := toyDecodeUTF8
  encodeUTF8 := toyEncodeUTF8
  box_roundtrip := by
    intro m n ska skb
    have h : List.sum skb + List.sum ska + List.sum n
        = List.sum ska + List.sum skb + List.sum n := by omega
    simp [toyBox, toyBoxOpen, h]
  base64_roundtrip := by
    have key : ∀ n l, unaryDecode (natUnary n ++ l)
        = (unaryDecode l).map (fun b => n :: b) := by
      intro n
      induction n with
      | zero =>
          intro l
          simp [natUnary, unaryDecode]
      | succ k ih =>
          intro l
          rw [natUnary, List.cons_append, unaryDecode]
          simp only [ih l]
          cases unaryDecode l <;> simp
    intro b
    show unaryDecode (unaryEncode b) = some b
    induction b with
    | nil => rfl
    | cons n bs ih => rw [unaryEncode, key, ih]; rfl
  utf8_roundtrip := by
    intro s
    show String.mk ((s.data.map Char.toNat).map Char.ofNat) = s
    rw [List.map_map]
    have h : (Char.ofNat ∘ Char.toNat) = fun c : Char => c := by
      funext c
      exact Char.ofNat_toNat c
    rw [h, List.map_id']

/-- A concrete v1 payload as emitted by the legacy engine (with toy
primitives): it has `version = 1` and no v2 box fields. -/
def v1EmittedPayload : RawPayload :=
  encryptMessageV1 (fun _ key => key) (fun _ _ m => m) toyEncodeBase64 toyDecodeUTF8
    "hi" [7] [9] [4]

/-! ## Helper lemmas -/

theorem storeGet_storePut_same (store : KeyStore) (id key : String) :
    storeGet (storePut store id key) id = some key := by
  induction store with
  | nil => simp [storePut, storeGet]
  | cons hd tl ih =>
      obtain ⟨i, k⟩ := hd
      by_cases h : i = id
      · simp [storePut, storeGet, h]
      · simp [storePut, storeGet, h, ih]

theorem storeGet_storePut_other (store : KeyStore) (id id' key : String) (h : id' ≠ id) :
    storeGet (storePut store id key) id' = storeGet store id' := by
  induction store with
  | nil => simp [storePut, storeGet, Ne.symm h]
  | cons hd tl ih =>
      obtain ⟨i, k⟩ := hd
      by_cases hi : i = id
      · subst hi
        simp [storePut, storeGet, Ne.symm h]
      · by_cases hi' : i = id'
        · simp [storePut, storeGet, hi, hi', h]
        · simp [storePut, storeGet, hi, hi', ih]

theorem privateKeyId_ne_publicKeyId (u c : Option String) :
    getPrivateKeyId u c ≠ getPublicKeyId u c := by
  unfold getPrivateKeyId getPublicKeyId
  cases jsOr u c with
  | none => decide
  | some s =>
      intro h
      have h2 := congrArg String.data h
      rw [String.data_append, String.data_append] at h2
      have hpriv : "private-key-".data
          = ['p', 'r', 'i', 'v', 'a', 't', 'e', '-', 'k', 'e', 'y', '-'] := rfl
      have hpub : "public-key-".data
          = ['p', 'u', 'b', 'l', 'i', 'c', '-', 'k', 'e', 'y', '-'] := rfl
      rw [hpriv, hpub] at h2
      simp only [List.cons_append, List.cons.injEq] at h2
      exact absurd h2.2.1 (by decide)

/-! ## C1: encrypt-then-decrypt round trip (v2 engine) -/

/-- C1.  For every plaintext `P` and every key pair produced by
`generateKeyPair` (from secret entropy `sk`), encrypting `P` under the
public half succeeds and decrypting the emitted payload under the private
half returns exactly `P` — for any library instance satisfying the NaCl
contract. -/
theorem encryptMessage_decryptMessage_roundtrip (lib : NaclLib) (P : String)
    (sk ephemeralSecretKey nonceBytes : Bytes) :
    ∃ payload,
      encryptMessage lib P (generateKeyPair lib sk).publicKey ephemeralSecretKey nonceBytes
        = Except.ok payload ∧
      decryptMessage lib payload.toRaw (generateKeyPair lib sk).privateKey = Except.ok P := by
  refine ⟨{ ephemeralPublicKey := lib.encodeBase64 (lib.boxPub ephemeralSecretKey)
          , nonce := lib.encodeBase64 nonceBytes
          , ciphertext := lib.encodeBase64
              (lib.box (lib.decodeUTF8 P) nonceBytes (lib.boxPub sk) ephemeralSecretKey)
          , version := 2 }, ?_, ?_⟩
  · simp [encryptMessage, generateKeyPair, lib.base64_roundtrip]
  · simp [decryptMessage, EncryptedPayload.toRaw, generateKeyPair, lib.base64_roundtrip,
      lib.box_roundtrip, lib.utf8_roundtrip]

/-- C1 witness at a concrete instance. -/
theorem encryptMessage_decryptMessage_roundtrip_witness :
    ∃ payload,
      encryptMessage toyLib "hello" (generateKeyPair toyLib [3, 1]).publicKey [5] [2]
        = Except.ok payload ∧
      decryptMessage toyLib payload.toRaw (generateKeyPair toyLib [3, 1]).privateKey
        = Except.ok "hello" :=
  encryptMessage_decryptMessage_roundtrip toyLib "hello" [3, 1] [5] [2]

/-! ## C2: version dispatch in decryptMessage -/

/-- C2 counterexample.  A payload the legacy v1 engine emitted (`version =
1`, fields `encryptedKey`/`encryptedMessage`/`iv`) is not decodable by
`decryptMessage`: the decoder does not select a v1 algorithm from the
version tag, it unconditionally runs the v2 box algorithm and fails on the
missing box fields. -/
theorem decryptMessage_rejects_v1_payload :
    v1EmittedPayload.version = 1 ∧
    decryptMessage toyLib v1EmittedPayload "0"
      = Except.error "Failed to decrypt message. Key mismatch or corrupted data." :=
  ⟨rfl, rfl⟩

/-- C2 amended.  `decryptMessage` reads `payload.version` only for a console
warning: its result is identical for every value of the version field, and
any payload without the v2 `ephemeralPublicKey` field (in particular every
v1 payload) fails with the fixed decryption error. -/
theorem decryptMessage_ignores_version (lib : NaclLib) (payload : RawPayload)
    (privateKey : String) (v : Nat) (h : payload.ephemeralPublicKey = none) :
    decryptMessage lib { payload with version := v } privateKey
      = decryptMessage lib payload privateKey ∧
    decryptMessage lib payload privateKey
      = Except.error "Failed to decrypt message. Key mismatch or corrupted data." := by
  constructor
  · rfl
  · simp [decryptMessage, h]

/-- C2 amended, witness at the concrete emitted v1 payload. -/
theorem decryptMessage_ignores_version_witness :
    decryptMessage toyLib { v1EmittedPayload with version := 2 } "0"
      = decryptMessage toyLib v1EmittedPayload "0" ∧
    decryptMessage toyLib v1EmittedPayload "0"
      = Except.error "Failed to decrypt message. Key mismatch or corrupted data." :=
  decryptMessage_ignores_version toyLib v1EmittedPayload "0" 2 rfl

/-! ## C10: clearKeys deletes every identity's keys -/

/-- C10.  `clearKeys` empties the whole object store: afterwards
`hasKeyPair` is false for every identity on the device — including ones
whose pair was just saved under a different namespaced id — even though
saving is namespaced per lowercase username (the third conjunct: a saved
pair is visible to its own identity before the clear). -/
theorem clearKeys_clears_every_identity (store : KeyStore)
    (current other : Option String) (pub priv : String) :
    hasKeyPair (clearKeys store) other = false ∧
    hasKeyPair (clearKeys (saveKeyPair store current pub priv)) other = false ∧
    hasKeyPair (saveKeyPair store current pub priv) current = true := by
  refine ⟨rfl, rfl, ?_⟩
  have hne := privateKeyId_ne_publicKeyId none current
  unfold hasKeyPair getKeyPair getPublicKey getPrivateKey saveKeyPair savePrivateKey
    savePublicKey
  rw [storeGet_storePut_same, storeGet_storePut_other _ _ _ _ (Ne.symm hne),
    storeGet_storePut_same]
  rfl

/-! ## Dispatcher helper lemmas -/

theorem sendDirectMessage_cache_passthrough (lib : NaclLib) (eph nonceB : Bytes)
    (u m r : String) (e2e : Bool) (pk : Option String) (cache cache' : RecipientKeyCache)
    (lookup : LookupOutcome) (ts : String) :
    (sendDirectMessage lib eph nonceB u m r e2e pk cache lookup ts).finalCache = cache ∧
    sendDirectMessage lib eph nonceB u m r e2e pk cache lookup ts
      = { sendDirectMessage lib eph nonceB u m r e2e pk cache' lookup ts
          with finalCache := cache } := by
  by_cases hg : jsTrim m = "" ∨ r = ""
  · constructor <;> simp [sendDirectMessage, hg]
  · cases lookup with
    | thrown =>
        cases hb : (e2e && (jsStr pk).isSome) <;>
          constructor <;> simp [sendDirectMessage, hg, hb]
    | response err pkR =>
        cases hb : (e2e && (jsStr pk).isSome)
        · constructor <;> simp [sendDirectMessage, hg, hb]
        · cases hpk : jsStr pkR with
          | none => constructor <;> simp [sendDirectMessage, hg, hb, hpk]
          | some k =>
              cases hE : encryptMessage lib m k eph nonceB <;>
                constructor <;> simp [sendDirectMessage, hg, hb, hpk, hE]

theorem sendDirectMessage_appended_echo (lib : NaclLib) (eph nonceB : Bytes)
    (u m r : String) (e2e : Bool) (pk : Option String) (cache : RecipientKeyCache)
    (lookup : LookupOutcome) (ts : String) (h1 : jsTrim m ≠ "") (h2 : r ≠ "") :
    (sendDirectMessage lib eph nonceB u m r e2e pk cache lookup ts).appended
      = [{ username := u, message := m, timestamp := ts, isDM := true
         , recipient := some r }] := by
  have hg : ¬(jsTrim m = "" ∨ r = "") := by simp [h1, h2]
  cases lookup with
  | thrown =>
      cases hb : (e2e && (jsStr pk).isSome) <;> simp [sendDirectMessage, hg, hb]
  | response err pkR =>
      cases hb : (e2e && (jsStr pk).isSome)
      · simp [sendDirectMessage, hg, hb]
      · cases hpk : jsStr pkR with
        | none => simp [sendDirectMessage, hg, hb, hpk]
        | some k =>
            cases hE : encryptMessage lib m k eph nonceB <;>
              simp [sendDirectMessage, hg, hb, hpk, hE]

/-! ## C3: behaviour when encryption itself fails -/

/-- C3 counterexample.  With E2E enabled and the recipient key resolved,
`encryptMessage` fails (the resolved key is not valid base64), yet the send
is not aborted: an envelope carrying the plaintext body with
`encrypted = false` is transmitted. -/
theorem encryptFailure_still_transmits_plaintext :
    encryptMessage toyLib "hi" "2" [1] [2] = Except.error "Failed to encrypt message" ∧
    (sendDirectMessage toyLib [1] [2] "alice" "hi" "bob" true (some "0") []
        (LookupOutcome.response none (some "2")) "t").emitted
      = [{ username := "alice", recipient := some "bob", message := "hi", encrypted := false
         , isDM := none, timestamp := "t" }] :=
  ⟨rfl, rfl⟩

/-- C3 amended.  If `encryptMessage` throws during a directed send (with E2E
enabled and a resolved recipient key), the send does not abort: execution
falls through to the degraded path, transmitting exactly one envelope with
the body unmodified and `encrypted = false`, still appending the one local
echo, and logging the failure and fallback warnings; the dispatcher state
(here: the cache) and subsequent sends are unaffected. -/
theorem encryptFailure_falls_back_to_plaintext (lib : NaclLib) (eph nonceB : Bytes)
    (u m r : String) (pk : Option String) (cache : RecipientKeyCache)
    (err : Option String) (k ts e : String)
    (h1 : jsTrim m ≠ "") (h2 : r ≠ "") (hkey : (jsStr pk).isSome = true) (hk : k ≠ "")
    (henc : encryptMessage lib m k eph nonceB = Except.error e) :
    sendDirectMessage lib eph nonceB u m r true pk cache
        (LookupOutcome.response err (some k)) ts
      = { emitted := [{ username := u, recipient := some r, message := m
                      , encrypted := false, isDM := none, timestamp := ts }]
        , appended := [{ username := u, message := m, timestamp := ts, isDM := true
                       , recipient := some r }]
        , warnings := (match err with
            | some _ => ["API Error getting public key"]
            | none => []) ++ ["DM encryption failed", "Falling back to UNENCRYPTED DM!"]
        , encryptCalls := 1, remoteLookups := 1, finalCache := cache } := by
  have hg : ¬(jsTrim m = "" ∨ r = "") := by simp [h1, h2]
  have hks : jsStr (some k) = some k := by simp [jsStr, hk]
  simp [sendDirectMessage, hg, hkey, hks, henc]

/-- C3 amended, witness. -/
theorem encryptFailure_falls_back_to_plaintext_witness :
    sendDirectMessage toyLib [1] [2] "alice" "hi" "bob" true (some "0") []
        (LookupOutcome.response none (some "2")) "t"
      = { emitted := [{ username := "alice", recipient := some "bob", message := "hi"
                      , encrypted := false, isDM := none, timestamp := "t" }]
        , appended := [{ username := "alice", message := "hi", timestamp := "t", isDM := true
                       , recipient := some "bob" }]
        , warnings := ["DM encryption failed", "Falling back to UNENCRYPTED DM!"]
        , encryptCalls := 1, remoteLookups := 1, finalCache := [] } :=
  encryptFailure_falls_back_to_plaintext toyLib [1] [2] "alice" "hi" "bob" (some "0") []
    none "2" "t" "Failed to encrypt message" (by decide) (by decide) rfl (by decide) rfl

/-! ## C4: degraded send when the recipient key cannot be resolved -/

/-- C4.  When the recipient's public key cannot be resolved — the directory
answered without a usable key, or the lookup itself threw — the dispatcher
transmits exactly one envelope with the body unmodified and
`encrypted = false`, logs an observable fallback warning, and still
appends the plaintext local echo. -/
theorem unresolvedKey_degrades_observably (lib : NaclLib) (eph nonceB : Bytes)
    (u m r : String) (pk : Option String) (cache : RecipientKeyCache)
    (err pkR : Option String) (ts : String)
    (h1 : jsTrim m ≠ "") (h2 : r ≠ "") (hkey : (jsStr pk).isSome = true)
    (hnokey : jsStr pkR = none) :
    sendDirectMessage lib eph nonceB u m r true pk cache
        (LookupOutcome.response err pkR) ts
      = { emitted := [{ username := u, recipient := some r, message := m
                      , encrypted := false, isDM := none, timestamp := ts }]
        , appended := [{ username := u, message := m, timestamp := ts, isDM := true
                       , recipient := some r }]
        , warnings := (match err with
            | some _ => ["API Error getting public key"]
            | none => []) ++ ["No public key found", "Falling back to UNENCRYPTED DM!"]
        , encryptCalls := 0, remoteLookups := 1, finalCache := cache } ∧
    sendDirectMessage lib eph nonceB u m r true pk cache LookupOutcome.thrown ts
      = { emitted := [{ username := u, recipient := some r, message := m
                      , encrypted := false, isDM := none, timestamp := ts }]
        , appended := [{ username := u, message := m, timestamp := ts, isDM := true
                       , recipient := some r }]
        , warnings := ["DM encryption failed", "Falling back to UNENCRYPTED DM!"]
        , encryptCalls := 0, remoteLookups := 1, finalCache := cache } ∧
    "Falling back to UNENCRYPTED DM!" ∈
      (sendDirectMessage lib eph nonceB u m r true pk cache
        (LookupOutcome.response err pkR) ts).warnings := by
  have hg : ¬(jsTrim m = "" ∨ r = "") := by simp [h1, h2]
  have hmain : sendDirectMessage lib eph nonceB u m r true pk cache
      (LookupOutcome.response err pkR) ts
    = { emitted := [{ username := u, recipient := some r, message := m
                    , encrypted := false, isDM := none, timestamp := ts }]
      , appended := [{ username := u, message := m, timestamp := ts, isDM := true
                     , recipient := some r }]
      , warnings := (match err with
          | some _ => ["API Error getting public key"]
          | none => []) ++ ["No public key found", "Falling back to UNENCRYPTED DM!"]
      , encryptCalls := 0, remoteLookups := 1, finalCache := cache } := by
    simp [sendDirectMessage, hg, hkey, hnokey]
  refine ⟨hmain, ?_, ?_⟩
  · simp [sendDirectMessage, hg, hkey]
  · rw [hmain]
    cases err <;> simp

/-- C4 witness. -/
theorem unresolvedKey_degrades_observably_witness :
    sendDirectMessage toyLib [1] [2] "alice" "hi" "bob" true (some "0") []
        (LookupOutcome.response (some "User not found") none) "t"
      = { emitted := [{ username := "alice", recipient := some "bob", message := "hi"
                      , encrypted := false, isDM := none, timestamp := "t" }]
        , appended := [{ username := "alice", message := "hi", timestamp := "t", isDM := true
                       , recipient := some "bob" }]
        , warnings := ["API Error getting public key", "No public key found",
            "Falling back to UNENCRYPTED DM!"]
        , encryptCalls := 0, remoteLookups := 1, finalCache := [] } ∧
    sendDirectMessage toyLib [1] [2] "alice" "hi" "bob" true (some "0") []
        LookupOutcome.thrown "t"
      = { emitted := [{ username := "alice", recipient := some "bob", message := "hi"
                      , encrypted := false, isDM := none, timestamp := "t" }]
        , appended := [{ username := "alice", message := "hi", timestamp := "t", isDM := true
                       , recipient := some "bob" }]
        , warnings := ["DM encryption failed", "Falling back to UNENCRYPTED DM!"]
        , encryptCalls := 0, remoteLookups := 1, finalCache := [] } ∧
    "Falling back to UNENCRYPTED DM!" ∈
      (sendDirectMessage toyLib [1] [2] "alice" "hi" "bob" true (some "0") []
        (LookupOutcome.response (some "User not found") none) "t").warnings :=
  unresolvedKey_degrades_observably toyLib [1] [2] "alice" "hi" "bob" (some "0") []
    (some "User not found") none "t" (by decide) (by decide) rfl rfl

/-! ## C5: encrypted envelope received with no private key -/

/-- C5 counterexample.  An `encrypted = true` direct envelope received with
no local private key appends exactly one message, but its body is the raw
(still encrypted) payload text, not the fixed undecryptable placeholder:
the placeholder is produced only when a private key is present and the
decrypt attempt fails. -/
theorem encrypted_noKey_appends_raw_body :
    receiveDirectMessage toyLib (fun _ => none) "alice" none
        { username := "bob", recipient := some "alice", message := "XYZCIPHER"
        , encrypted := true, timestamp := "t" } []
      = [{ username := "bob", message := "XYZCIPHER", timestamp := "t", isDM := true
         , recipient := some "alice" }] ∧
    "XYZCIPHER" ≠ "[Encrypted DM - unable to decrypt]" :=
  ⟨rfl, by decide⟩

/-- C5 amended.  Receiving an `encrypted = true` envelope with no (truthy)
local private key appends exactly one message — log length grows by exactly
one — whose body is the received body unchanged, on the direct path (for a
sender other than the local user) as well as on the broadcast path. -/
theorem encrypted_noKey_appends_exactly_one (lib : NaclLib)
    (parse : String → Option RawPayload) (username : String) (pk : Option String)
    (data : IncomingEnvelope) (log : List Message)
    (hnokey : jsStr pk = none) (henc : data.encrypted = true)
    (hns : data.username ≠ username) :
    receiveDirectMessage lib parse username pk data log
      = log ++ [{ username := data.username, message := data.message
                , timestamp := data.timestamp, isDM := true, recipient := data.recipient }] ∧
    receiveMessage lib parse pk data log
      = log ++ [{ username := data.username, message := data.message
                , timestamp := data.timestamp, isDM := false, recipient := data.recipient }] ∧
    (receiveDirectMessage lib parse username pk data log).length = log.length + 1 := by
  refine ⟨?_, ?_, ?_⟩
  · simp [receiveDirectMessage, hns, henc, hnokey]
  · simp [receiveMessage, henc, hnokey]
  · simp [receiveDirectMessage, hns, henc, hnokey]

/-- C5 amended, witness. -/
theorem encrypted_noKey_appends_exactly_one_witness :
    receiveDirectMessage toyLib (fun _ => none) "alice" none
        { username := "bob", recipient := some "alice", message := "XYZ"
        , encrypted := true, timestamp := "t" } []
      = [] ++ [{ username := "bob", message := "XYZ", timestamp := "t", isDM := true
               , recipient := some "alice" }] ∧
    receiveMessage toyLib (fun _ => none) none
        { username := "bob", recipient := some "alice", message := "XYZ"
        , encrypted := true, timestamp := "t" } []
      = [] ++ [{ username := "bob", message := "XYZ", timestamp := "t", isDM := false
               , recipient := some "alice" }] ∧
    (receiveDirectMessage toyLib (fun _ => none) "alice" none
        { username := "bob", recipient := some "alice", message := "XYZ"
        , encrypted := true, timestamp := "t" } []).length = List.length ([] : List Message) + 1 :=
  encrypted_noKey_appends_exactly_one toyLib (fun _ => none) "alice" none
    { username := "bob", recipient := some "alice", message := "XYZ"
    , encrypted := true, timestamp := "t" } [] rfl rfl (by decide)

/-! ## C6: broadcast never encrypts -/

/-- C6.  A broadcast send (no recipient) transmits the body unmodified with
`encrypted = false` and contains zero `encryptMessage` calls. -/
theorem broadcast_send_never_encrypts (u m ts : String) (h : jsTrim m ≠ "") :
    sendMessage u m ts
      = { emitted := [{ username := u, recipient := none, message := m, encrypted := false
                      , isDM := some false, timestamp := ts }]
        , appended := [], encryptCalls := 0 } ∧
    (sendMessage u m ts).encryptCalls = 0 := by
  constructor
  · simp [sendMessage, h]
  · unfold sendMessage
    split <;> rfl

/-- C6 witness. -/
theorem broadcast_send_never_encrypts_witness :
    sendMessage "alice" "hi" "t"
      = { emitted := [{ username := "alice", recipient := none, message := "hi"
                      , encrypted := false, isDM := some false, timestamp := "t" }]
        , appended := [], encryptCalls := 0 } ∧
    (sendMessage "alice" "hi" "t").encryptCalls = 0 :=
  broadcast_send_never_encrypts "alice" "hi" "t" (by decide)

/-! ## C7: self-addressed directed envelopes are dropped -/

/-- C7.  A directed envelope whose sender equals the local identity appends
nothing (the log is returned unchanged), while the send path appends the
optimistic echo exactly once — so across a full relay round trip each sent
directed message appears in the log exactly once. -/
theorem selfDirectedEnvelope_dropped (lib : NaclLib)
    (parse : String → Option RawPayload) (u : String) (pk : Option String)
    (data : IncomingEnvelope) (log : List Message) (eph nonceB : Bytes) (m r : String)
    (e2e : Bool) (cache : RecipientKeyCache) (lookup : LookupOutcome) (ts : String)
    (hself : data.username = u) (h1 : jsTrim m ≠ "") (h2 : r ≠ "") :
    receiveDirectMessage lib parse u pk data log = log ∧
    (sendDirectMessage lib eph nonceB u m r e2e pk cache lookup ts).appended
      = [{ username := u, message := m, timestamp := ts, isDM := true
         , recipient := some r }] := by
  constructor
  · simp [receiveDirectMessage, hself]
  · exact sendDirectMessage_appended_echo lib eph nonceB u m r e2e pk cache lookup ts h1 h2

/-- C7 witness. -/
theorem selfDirectedEnvelope_dropped_witness :
    receiveDirectMessage toyLib (fun _ => none) "alice" none
        { username := "alice", recipient := some "bob", message := "XYZ"
        , encrypted := true, timestamp := "t" } [] = [] ∧
    (sendDirectMessage toyLib [1] [2] "alice" "hi" "bob" false none []
        LookupOutcome.thrown "t").appended
      = [{ username := "alice", message := "hi", timestamp := "t", isDM := true
         , recipient := some "bob" }] :=
  selfDirectedEnvelope_dropped toyLib (fun _ => none) "alice" none
    { username := "alice", recipient := some "bob", message := "XYZ"
    , encrypted := true, timestamp := "t" } [] [1] [2] "hi" "bob" false []
    LookupOutcome.thrown "t" rfl (by decide) (by decide)

/-! ## C8: the recipient-key cache on the send path -/

/-- C8 counterexample.  Even with the recipient's key already cached (under
the exact lowercase username), a directed send still performs a remote
directory lookup; and after a successful remote lookup with an initially
empty cache, the cache is still empty — the send path neither consults nor
populates the `RecipientKeyCache`. -/
theorem cachedKey_still_remote_lookup :
    (sendDirectMessage toyLib [1] [2] "alice" "hi" "bob" true (some "0")
        [("bob", "111110")] (LookupOutcome.response none (some "111110")) "t").remoteLookups
      = 1 ∧
    (sendDirectMessage toyLib [1] [2] "alice" "hi" "bob" true (some "0")
        [] (LookupOutcome.response none (some "111110")) "t").finalCache = [] ∧
    getCachedRecipientKey [("bob", "111110")] "bob" = some "111110" :=
  ⟨rfl, rfl, rfl⟩

/-- C8 amended.  Key resolution for a directed send never consults the
`RecipientKeyCache` and never populates it: the whole observable result is
independent of the cache contents (which pass through unchanged), and with
E2E enabled every directed send performs exactly one remote directory
lookup. -/
theorem sendDirectMessage_ignores_cache (lib : NaclLib) (eph nonceB : Bytes)
    (u m r : String) (pk : Option String) (cache cache' : RecipientKeyCache)
    (lookup : LookupOutcome) (ts : String)
    (h1 : jsTrim m ≠ "") (h2 : r ≠ "") (hkey : (jsStr pk).isSome = true) :
    (sendDirectMessage lib eph nonceB u m r true pk cache lookup ts).finalCache = cache ∧
    sendDirectMessage lib eph nonceB u m r true pk cache lookup ts
      = { sendDirectMessage lib eph nonceB u m r true pk cache' lookup ts
          with finalCache := cache } ∧
    (sendDirectMessage lib eph nonceB u m r true pk cache lookup ts).remoteLookups = 1 := by
  obtain ⟨hc, hind⟩ := sendDirectMessage_cache_passthrough lib eph nonceB u m r true pk
    cache cache' lookup ts
  refine ⟨hc, hind, ?_⟩
  have hg : ¬(jsTrim m = "" ∨ r = "") := by simp [h1, h2]
  cases lookup with
  | thrown => simp [sendDirectMessage, hg, hkey]
  | response err pkR =>
      cases hpk : jsStr pkR with
      | none => simp [sendDirectMessage, hg, hkey, hpk]
      | some k =>
          cases hE : encryptMessage lib m k eph nonceB <;>
            simp [sendDirectMessage, hg, hkey, hpk, hE]

/-- C8 amended, witness. -/
theorem sendDirectMessage_ignores_cache_witness :
    (sendDirectMessage toyLib [1] [2] "alice" "hi" "bob" true (some "0")
        [("bob", "111110")] (LookupOutcome.response none (some "111110")) "t").finalCache
      = [("bob", "111110")] ∧
    sendDirectMessage toyLib [1] [2] "alice" "hi" "bob" true (some "0")
        [("bob", "111110")] (LookupOutcome.response none (some "111110")) "t"
      = { sendDirectMessage toyLib [1] [2] "alice" "hi" "bob" true (some "0")
            [] (LookupOutcome.response none (some "111110")) "t"
          with finalCache := [("bob", "111110")] } ∧
    (sendDirectMessage toyLib [1] [2] "alice" "hi" "bob" true (some "0")
        [("bob", "111110")] (LookupOutcome.response none (some "111110")) "t").remoteLookups
      = 1 :=
  sendDirectMessage_ignores_cache toyLib [1] [2] "alice" "hi" "bob" (some "0")
    [("bob", "111110")] [] (LookupOutcome.response none (some "111110")) "t"
    (by decide) (by decide) rfl

/-! ## C9: peer_connected re-publishes the key, failures non-fatal -/

/-- C9.  On a `peer_connected` event with E2E enabled the handler calls the
key re-publication exactly once, its result is identical whatever the
re-publication outcome (success, API error or rejected promise — the
`.catch` swallows failures), the handler never throws, and with E2E
disabled no re-publication happens. -/
theorem peerConnected_republish_nonfatal (resyncA resyncB : ResyncOutcome)
    (peerId ts : String) :
    peerConnectedHandler true resyncA peerId ts = peerConnectedHandler true resyncB peerId ts ∧
    (peerConnectedHandler true resyncA peerId ts).publishCalls = 1 ∧
    (peerConnectedHandler true resyncA peerId ts).threw = false ∧
    (peerConnectedHandler false resyncA peerId ts).publishCalls = 0 :=
  ⟨rfl, rfl, rfl, rfl⟩

end WebrtcMessenger
